import Mathlib

/-
Verification development for the `bug-report-package` client library.

The repository ships several near-duplicate variants of a `BugReportClient`
class.  We embed each variant that the specification talks about as a pure
Lean function: an operation takes the client configuration, its arguments and
the outcome offered by the HTTP transport, and returns the list of HTTP
requests it issued together with its result (`Except` models JS exceptions /
promise rejections).

Variant naming (the repository stores them concatenated):
* `V1` — first `class BugReportClient` in `src/client/index.ts`
  (endpoints `/bugs/...`, requires `appName`);
* `V2` — second class in `src/client/index.ts` (adds
  `submitBugReportWithProgress` and `getBugTags`);
* `V3` — third class in `src/client/index.ts` (the `handleResponse` helper,
  no `appName`, multipart upload, XHR upload progress);
* `V4` — the class in `src/unnamed/part_000` (endpoints `/api/bugs/...`,
  its `submitBugReportWithFileProgress` assigns to `this.headers`);
* `V5` — the class in `src/unnamed/part_001` (constructor validates via the
  zod `AppCredentialsSchema`, XHR-based `submitBugReportWithProgress`).
-/

set_option autoImplicit false

namespace BugReportPkg

/-- Meta envelope of every API response (`ApiResponse.meta` / `ApiErrorResponse.meta`
in `src/types`): a numeric code, a status string and a message. -/
structure Meta where
  code : Nat
  status : String
  message : String
deriving DecidableEq, Repr

/-- Header maps (`Record<string, string>` in the source), as association lists
in insertion order with unique keys. -/
abbrev HeaderMap := List (String × String)

/-- Update one key of a header map the way a JavaScript object update / spread
does: if the key is present its value is replaced in place, otherwise the pair
is appended at the end. -/
def setH : HeaderMap → String → String → HeaderMap
  | [], k, v => [(k, v)]
  | (a, b) :: t, k, v => if a == k then (k, v) :: t else (a, b) :: setH t k v

/-- Merge of two header maps by JavaScript object spread `{ ...base, ...extra }`:
every entry of `extra` is written over `base`, later entries winning. -/
def mergeH (base extra : HeaderMap) : HeaderMap :=
  extra.foldl (fun acc p => setH acc p.1 p.2) base

/-- Lookup of a header value (JavaScript property read). -/
def getH : HeaderMap → String → Option String
  | [], _ => none
  | (a, b) :: t, k => if a == k then some b else getH t k

/-- Removal of a key, as done by the destructuring
`const \x7b "Content-Type": _, ...headers \x7d = this.headers` in variant `V3`. -/
def removeH (h : HeaderMap) (k : String) : HeaderMap :=
  h.filter (fun p => p.1 != k)

/-- Values of the `BugSeverity` enum in `src/types`. -/
def severityValues : List String := ["LOW", "MEDIUM", "HIGH", "CRITICAL"]

/-- Values of the `BugTagSchema` enum in `src/types`. -/
def bugTagValues : List String :=
  ["UI", "FUNCTIONALITY", "PERFORMANCE", "SECURITY", "CRASH", "NETWORK", "DATABASE", "OTHER"]

/-- Bug report payload handed to `submitBugReport` (the shape `BugReportSchema`
checks in `src/types`).  `severity` and the tags are kept as raw strings so
that the zod enum membership checks are part of validation, as in the source;
dates are modelled as natural timestamps. -/
structure BugReport where
  title : String
  description : String
  severity : String
  tags : List String
  file : Option (List String) := none
  createdAt : Option Nat := none
deriving DecidableEq, Repr

/-- Validation performed by `BugReportSchema.parse`: `title` a string of length
1..200, `description` a nonempty string, `severity` a `BugSeverity` value,
`tags` an array of `BugTagSchema` values; `file` (optional string array) and
`createdAt` (optional date) are enforced by the field types of the embedding. -/
def validateBugReport (r : BugReport) : Bool :=
  decide (1 ≤ r.title.length) && decide (r.title.length ≤ 200) &&
  decide (1 ≤ r.description.length) &&
  severityValues.contains r.severity &&
  r.tags.all (fun t => bugTagValues.contains t)

/-- Browser `File` object, reduced to the properties the source reads:
`name`, MIME `type` and `size`. -/
structure FileObj where
  name : String
  type : String
  size : Nat
deriving DecidableEq, Repr

/-- MIME types accepted by the `.refine` on `BugReportFileSchema`'s file array
(the stray array hole in the source list adds only `undefined`, which no
`File.type` string ever equals). -/
def allowedFileTypes : List String := ["image/png", "image/jpeg", "image/jpg"]

/-- Payload of the multipart operations (the shape `BugReportFileSchema`
checks in `src/types`). -/
structure BugReportFile where
  title : String
  description : String
  severity : String
  tags : List String
  file : List FileObj
  createdAt : Option Nat := none
deriving DecidableEq, Repr

/-- Validation performed by `BugReportFileSchema.parse`: same title,
description, severity and tag checks as `BugReportSchema`, plus every element
of `file` must have an allowed MIME type.  The schema puts no lower bound on
the length of the `file` array. -/
def validateBugReportFile (r : BugReportFile) : Bool :=
  decide (1 ≤ r.title.length) && decide (r.title.length ≤ 200) &&
  decide (1 ≤ r.description.length) &&
  severityValues.contains r.severity &&
  r.tags.all (fun t => bugTagValues.contains t) &&
  r.file.all (fun f => allowedFileTypes.contains f.type)

/-- Result of `JSON.stringify` on an array of tag strings (tag enum values
contain no characters needing JSON escapes). -/
def jsonStringOfTags (tags : List String) : String :=
  "[" ++ String.intercalate "," (tags.map (fun t => "\"" ++ t ++ "\"")) ++ "]"

/-- One entry appended to a `FormData` object: either a plain string field or
a file under a field name. -/
inductive FormEntry where
  | field (name value : String)
  | fileEntry (name : String) (f : FileObj)
deriving DecidableEq, Repr

/-- Body of an issued HTTP request: nothing (GET), the JSON serialization of a
bug report (`JSON.stringify(\x7b ...report, createdAt: ... \x7d)`), or a
multipart form. -/
inductive RequestBody where
  | empty
  | jsonReport (r : BugReport)
  | form (entries : List FormEntry)
deriving DecidableEq, Repr

/-- An HTTP request as the client hands it to the transport. -/
structure Request where
  url : String
  method : String
  headers : HeaderMap
  body : RequestBody
deriving DecidableEq, Repr

/-- An HTTP response as seen by the client: the status code, what parsing the
body as an `ApiErrorResponse` envelope yields (`none` when the body is not
JSON), and the JSON-parsed payload `body` handed back on success.  The payload
type is abstract: the client code never inspects it. -/
structure HttpResponse (α : Type) where
  status : Nat
  errMeta : Option Meta
  body : α
deriving DecidableEq, Repr

/-- Outcome offered by the transport for the single request of an operation:
either an HTTP response or a transport-level failure (fetch rejection /
XHR `error` event) carrying the host's error message. -/
inductive Transport (α : Type) where
  | response (resp : HttpResponse α)
  | failure (message : String)

/-- Semantics of `Response.ok` in fetch and of `xhr.status >= 200 &&
xhr.status < 300`. -/
def responseOk (status : Nat) : Bool :=
  decide (200 ≤ status) && decide (status < 300)

/-- Errors an operation can end with.  `validation` is the plain
`Error("Invalid bug report data: ...")`, `api` is `ApiBugReportError`,
`notFound` is `NotFoundBugReportError`, `generic` is a plain `Error` whose
message the client code itself fixes, and `thrown` is an exception the client
code did not construct but let propagate (fetch rejections, JSON parse
failures of `response.json()`). -/
inductive ClientError where
  | validation (message : String)
  | api (m : Meta)
  | notFound (m : Meta)
  | generic (message : String)
  | thrown (message : String)
deriving DecidableEq, Repr

/-- Message prefix of the validation error thrown when a schema `parse`
fails (the source appends the zod error text, which we do not model). -/
def invalidReportMessage : String := "Invalid bug report data"

/-- Placeholder for the host JSON parser's exception message, propagated when
`response.json()` is called on a non-JSON body; its concrete text is
environment specific and never fixed by the client code. -/
def jsonParseFailureMessage : String := "Unexpected token in JSON"

/-- JSON body built by the submit operations:
`\x7b ...report, createdAt: report.createdAt ?? new Date() \x7d`, i.e. the
report with `createdAt` defaulted to the time of the request. -/
def submittedReport (r : BugReport) (now : Nat) : BugReport :=
  { r with createdAt := some (r.createdAt.getD now) }

/-- Configuration a constructed client carries: its private `apiUrl` and
`headers` fields. -/
structure Client where
  apiUrl : String
  headers : HeaderMap
deriving DecidableEq, Repr

deriving instance DecidableEq for Except

/-- Discriminator for `Except` results, to state "no client instance is
produced" without binders. -/
def exceptIsOk {ε α : Type} : Except ε α → Bool
  | Except.ok _ => true
  | Except.error _ => false

namespace V1

/-- Options of the first variant's constructor; a missing optional `headers`
record is the empty map (`options.headers ?? \x7b\x7d`), and a missing string
field is modelled as `""` (both are falsy under the `!options.x` checks). -/
structure ClientOptions where
  apiUrl : String
  appName : String
  appKey : String
  appSecret : String
  headers : HeaderMap := []
deriving Repr

/-- Default header object built by the constructor before the custom headers
are spread over it. -/
def defaultHeaders (o : ClientOptions) : HeaderMap :=
  [("Content-Type", "application/json"),
   ("X-App-Name", o.appName),
   ("X-App-Key", o.appKey),
   ("Authorization", "Bearer " ++ o.appSecret)]

/-- Constructor of variant `V1`: rejects a falsy `apiUrl`, then falsy
credentials, then stores the URL and the merged headers. -/
def mkClient (o : ClientOptions) : Except String Client :=
  if o.apiUrl == "" then
    Except.error "API URL is required"
  else if o.appName == "" || o.appKey == "" || o.appSecret == "" then
    Except.error "App credentials (App Name, App Key, App Secret) are required"
  else
    Except.ok { apiUrl := o.apiUrl, headers := mergeH (defaultHeaders o) o.headers }

/-- Variant `V1`'s `submitBugReport`: validate, then `POST /bugs/reports` with
`this.headers`; any non-2xx response becomes `ApiBugReportError` with the
parsed error meta (there is no 404 branch here); a 2xx response's parsed body
is returned as is. -/
def submitBugReport {α : Type} (c : Client) (r : BugReport) (now : Nat)
    (net : Transport α) : List Request × Except ClientError α :=
  if !validateBugReport r then
    ([], Except.error (ClientError.validation invalidReportMessage))
  else
    let req : Request :=
      { url := c.apiUrl ++ "/bugs/reports", method := "POST", headers := c.headers,
        body := RequestBody.jsonReport (submittedReport r now) }
    match net with
    | Transport.failure e => ([req], Except.error (ClientError.thrown e))
    | Transport.response resp =>
      if !responseOk resp.status then
        match resp.errMeta with
        | some m => ([req], Except.error (ClientError.api m))
        | none => ([req], Except.error (ClientError.thrown jsonParseFailureMessage))
      else
        ([req], Except.ok resp.body)

/-- Variant `V1`'s `getBugReport`: `GET /bugs/\x7bid\x7d`; a 404 becomes
`NotFoundBugReportError`, any other non-2xx becomes `ApiBugReportError`. -/
def getBugReport {α : Type} (c : Client) (id : String)
    (net : Transport α) : List Request × Except ClientError α :=
  let req : Request :=
    { url := c.apiUrl ++ "/bugs/" ++ id, method := "GET", headers := c.headers,
      body := RequestBody.empty }
  match net with
  | Transport.failure e => ([req], Except.error (ClientError.thrown e))
  | Transport.response resp =>
    if !responseOk resp.status then
      match resp.errMeta with
      | some m =>
        if resp.status == 404 then ([req], Except.error (ClientError.notFound m))
        else ([req], Except.error (ClientError.api m))
      | none => ([req], Except.error (ClientError.thrown jsonParseFailureMessage))
    else
      ([req], Except.ok resp.body)

end V1

namespace V2

/-- Variant `V2`'s `submitBugReportWithProgress`: same validation, request and
response handling as `V1.submitBugReport` (the progress callback only observes
the streamed body and does not affect the request or the result, so it is not
modelled); a transport failure of `fetch` propagates. -/
def submitBugReportWithProgress {α : Type} (c : Client) (r : BugReport) (now : Nat)
    (net : Transport α) : List Request × Except ClientError α :=
  if !validateBugReport r then
    ([], Except.error (ClientError.validation invalidReportMessage))
  else
    let req : Request :=
      { url := c.apiUrl ++ "/bugs/reports", method := "POST", headers := c.headers,
        body := RequestBody.jsonReport (submittedReport r now) }
    match net with
    | Transport.failure e => ([req], Except.error (ClientError.thrown e))
    | Transport.response resp =>
      if !responseOk resp.status then
        match resp.errMeta with
        | some m => ([req], Except.error (ClientError.api m))
        | none => ([req], Except.error (ClientError.thrown jsonParseFailureMessage))
      else
        ([req], Except.ok resp.body)

/-- Variant `V2`'s `getBugTags`: `GET /bugs/tags`; any non-2xx becomes
`ApiBugReportError` (no 404 branch). -/
def getBugTags {α : Type} (c : Client)
    (net : Transport α) : List Request × Except ClientError α :=
  let req : Request :=
    { url := c.apiUrl ++ "/bugs/tags", method := "GET", headers := c.headers,
      body := RequestBody.empty }
  match net with
  | Transport.failure e => ([req], Except.error (ClientError.thrown e))
  | Transport.response resp =>
    if !responseOk resp.status then
      match resp.errMeta with
      | some m => ([req], Except.error (ClientError.api m))
      | none => ([req], Except.error (ClientError.thrown jsonParseFailureMessage))
    else
      ([req], Except.ok resp.body)

end V2

/-- Entries appended to the `FormData` object by both multipart operations:
`title`, `description`, `severity`, the JSON-stringified `tags`, then each
file under the field name `file`. -/
def formDataOf (r : BugReportFile) : List FormEntry :=
  [FormEntry.field "title" r.title,
   FormEntry.field "description" r.description,
   FormEntry.field "severity" r.severity,
   FormEntry.field "tags" (jsonStringOfTags r.tags)]
  ++ r.file.map (fun f => FormEntry.fileEntry "file" f)

namespace V3

/-- Options of the `V3`/`V4`/`V5` constructors (no `appName`). -/
structure ClientOptions where
  apiUrl : String
  appKey : String
  appSecret : String
  headers : HeaderMap := []
deriving Repr

/-- Default header object of the `V3` constructor. -/
def defaultHeaders (o : ClientOptions) : HeaderMap :=
  [("Content-Type", "application/json"),
   ("X-App-Key", o.appKey),
   ("Authorization", "Bearer " ++ o.appSecret)]

/-- Constructor of variant `V3`. -/
def mkClient (o : ClientOptions) : Except String Client :=
  if o.apiUrl == "" then
    Except.error "API URL is required"
  else if o.appKey == "" || o.appSecret == "" then
    Except.error "App credentials (App Key, App Secret) are required"
  else
    Except.ok { apiUrl := o.apiUrl, headers := mergeH (defaultHeaders o) o.headers }

/-- Variant `V3`'s private `handleResponse` helper: on a non-2xx response the
body is parsed as an error envelope, a 404 becomes `NotFoundBugReportError`
and any other status `ApiBugReportError`; on a 2xx response the parsed body is
returned unchanged. -/
def handleResponse {α : Type} (resp : HttpResponse α) : Except ClientError α :=
  if !responseOk resp.status then
    match resp.errMeta with
    | some m =>
      if resp.status == 404 then Except.error (ClientError.notFound m)
      else Except.error (ClientError.api m)
    | none => Except.error (ClientError.thrown jsonParseFailureMessage)
  else
    Except.ok resp.body

/-- Variant `V3`'s `submitBugReport`: validate, `POST /bugs/reports` with the
configured headers, then `handleResponse`. -/
def submitBugReport {α : Type} (c : Client) (r : BugReport) (now : Nat)
    (net : Transport α) : List Request × Except ClientError α :=
  if !validateBugReport r then
    ([], Except.error (ClientError.validation invalidReportMessage))
  else
    let req : Request :=
      { url := c.apiUrl ++ "/bugs/reports", method := "POST", headers := c.headers,
        body := RequestBody.jsonReport (submittedReport r now) }
    match net with
    | Transport.failure e => ([req], Except.error (ClientError.thrown e))
    | Transport.response resp => ([req], handleResponse resp)

/-- Variant `V3`'s `submitBugReportWithFile`: validate against
`BugReportFileSchema`, build the form data, send it with the configured
headers minus `Content-Type`, then `handleResponse`. -/
def submitBugReportWithFile {α : Type} (c : Client) (r : BugReportFile)
    (net : Transport α) : List Request × Except ClientError α :=
  if !validateBugReportFile r then
    ([], Except.error (ClientError.validation invalidReportMessage))
  else
    let req : Request :=
      { url := c.apiUrl ++ "/bugs/reports", method := "POST",
        headers := removeH c.headers "Content-Type",
        body := RequestBody.form (formDataOf r) }
    match net with
    | Transport.failure e => ([req], Except.error (ClientError.thrown e))
    | Transport.response resp => ([req], handleResponse resp)

/-- Variant `V3`'s `submitBugReportWithFileProgress` (XMLHttpRequest):
validate, send the form data with every configured header except
`Content-Type`; the `error` event rejects with the fixed message
`"Network error occurred"`; on `load`, a 2xx status resolves with the parsed
body, a non-2xx rejects with `ApiBugReportError` when the body parses as an
error envelope and otherwise with `"Upload failed with status N"`. -/
def submitBugReportWithFileProgress {α : Type} (c : Client) (r : BugReportFile)
    (net : Transport α) : List Request × Except ClientError α :=
  if !validateBugReportFile r then
    ([], Except.error (ClientError.validation invalidReportMessage))
  else
    let req : Request :=
      { url := c.apiUrl ++ "/bugs/reports", method := "POST",
        headers := removeH c.headers "Content-Type",
        body := RequestBody.form (formDataOf r) }
    match net with
    | Transport.failure _ => ([req], Except.error (ClientError.generic "Network error occurred"))
    | Transport.response resp =>
      if responseOk resp.status then ([req], Except.ok resp.body)
      else
        match resp.errMeta with
        | some m => ([req], Except.error (ClientError.api m))
        | none =>
          ([req], Except.error (ClientError.generic
            ("Upload failed with status " ++ toString resp.status)))

/-- Variant `V3`'s `getBugReport`: `GET /bugs/\x7bid\x7d` then
`handleResponse`. -/
def getBugReport {α : Type} (c : Client) (id : String)
    (net : Transport α) : List Request × Except ClientError α :=
  let req : Request :=
    { url := c.apiUrl ++ "/bugs/" ++ id, method := "GET", headers := c.headers,
      body := RequestBody.empty }
  match net with
  | Transport.failure e => ([req], Except.error (ClientError.thrown e))
  | Transport.response resp => ([req], handleResponse resp)

/-- Variant `V3`'s `getBugTags`: `GET /bugs/tags` then `handleResponse`. -/
def getBugTags {α : Type} (c : Client)
    (net : Transport α) : List Request × Except ClientError α :=
  let req : Request :=
    { url := c.apiUrl ++ "/bugs/tags", method := "GET", headers := c.headers,
      body := RequestBody.empty }
  match net with
  | Transport.failure e => ([req], Except.error (ClientError.thrown e))
  | Transport.response resp => ([req], handleResponse resp)

end V3

namespace V4

/-- Options of the `V4` constructor (same shape as `V3`). -/
abbrev ClientOptions := V3.ClientOptions

/-- Default header object of the `V4` constructor. -/
def defaultHeaders (o : ClientOptions) : HeaderMap :=
  [("Content-Type", "application/json"),
   ("X-App-Key", o.appKey),
   ("Authorization", "Bearer " ++ o.appSecret)]

/-- Constructor of variant `V4` (its error message still names an App Name,
although the option no longer exists). -/
def mkClient (o : ClientOptions) : Except String Client :=
  if o.apiUrl == "" then
    Except.error "API URL is required"
  else if o.appKey == "" || o.appSecret == "" then
    Except.error "App credentials (App Name, App Key, App Secret) are required"
  else
    Except.ok { apiUrl := o.apiUrl, headers := mergeH (defaultHeaders o) o.headers }

/-- Variant `V4`'s `submitBugReportWithFile`: posts the form data to
`/api/bugs/reports` with headers
`\x7b ...this.headers, "Content-Type": "multipart/form-data" \x7d` (a spread
copy, the instance is untouched); any non-2xx becomes `ApiBugReportError`. -/
def submitBugReportWithFile {α : Type} (c : Client) (r : BugReportFile)
    (net : Transport α) : List Request × Except ClientError α :=
  if !validateBugReportFile r then
    ([], Except.error (ClientError.validation invalidReportMessage))
  else
    let req : Request :=
      { url := c.apiUrl ++ "/api/bugs/reports", method := "POST",
        headers := setH c.headers "Content-Type" "multipart/form-data",
        body := RequestBody.form (formDataOf r) }
    match net with
    | Transport.failure e => ([req], Except.error (ClientError.thrown e))
    | Transport.response resp =>
      if !responseOk resp.status then
        match resp.errMeta with
        | some m => ([req], Except.error (ClientError.api m))
        | none => ([req], Except.error (ClientError.thrown jsonParseFailureMessage))
      else
        ([req], Except.ok resp.body)

/-- Variant `V4`'s `submitBugReportWithFileProgress` (XMLHttpRequest).  After
validation it executes `this.headers["Content-Type"] = "multipart/form-data"`,
a persistent assignment to the instance's private field, and then sets every
header of the mutated map on the request.  The returned `Client` is the
instance's configuration after the call.  The `error` event rejects with
`"Network error occurred"`; `load` behaves as in `V3`. -/
def submitBugReportWithFileProgress {α : Type} (c : Client) (r : BugReportFile)
    (net : Transport α) : Client × List Request × Except ClientError α :=
  if !validateBugReportFile r then
    (c, [], Except.error (ClientError.validation invalidReportMessage))
  else
    let c2 : Client := { c with headers := setH c.headers "Content-Type" "multipart/form-data" }
    let req : Request :=
      { url := c.apiUrl ++ "/api/bugs/reports", method := "POST",
        headers := c2.headers, body := RequestBody.form (formDataOf r) }
    match net with
    | Transport.failure _ => (c2, [req], Except.error (ClientError.generic "Network error occurred"))
    | Transport.response resp =>
      if responseOk resp.status then (c2, [req], Except.ok resp.body)
      else
        match resp.errMeta with
        | some m => (c2, [req], Except.error (ClientError.api m))
        | none =>
          (c2, [req], Except.error (ClientError.generic
            ("Upload failed with status " ++ toString resp.status)))

end V4

namespace V5

/-- Options of the `V5` constructor (same shape as `V3`). -/
abbrev ClientOptions := V3.ClientOptions

/-- Split a character list at the first occurrence of the scheme separator
`"://"`, returning the parts before and after it. -/
def splitSchemeSep : List Char → Option (List Char × List Char)
  | [] => none
  | ':' :: '/' :: '/' :: rest => some ([], rest)
  | c :: rest => (splitSchemeSep rest).map (fun p => (c :: p.1, p.2))

/-- Model of the dependency check `z.string().url()` used by
`AppCredentialsSchema`: the string must consist of a nonempty scheme, the
separator `"://"` and a nonempty remainder.  The development only relies on
strings without a scheme separator (in particular `""`) being rejected and on
ordinary `https://host` URLs being accepted. -/
def zodIsUrl (s : String) : Bool :=
  match splitSchemeSep s.toList with
  | some (scheme, rest) => decide (1 ≤ scheme.length) && decide (1 ≤ rest.length)
  | none => false

/-- Check performed by `AppCredentialsSchema.parse` in the `V5` constructor:
`appUrl` must be a URL and `appKey`, `appSecret` strings of length at least
five. -/
def zodCheckCredentials (o : ClientOptions) : Bool :=
  zodIsUrl o.apiUrl && decide (5 ≤ o.appKey.length) && decide (5 ≤ o.appSecret.length)

/-- Constructor of variant `V5`: a failing `AppCredentialsSchema.parse` throws
`AppCredentialTypeError`; otherwise the stored headers are `X-App-Key` and
`Authorization` (no default `Content-Type`) with the custom headers spread
over them. -/
def mkClient (o : ClientOptions) : Except String Client :=
  if !zodCheckCredentials o then
    Except.error "Failed to initialize BugReportClient"
  else
    Except.ok
      { apiUrl := o.apiUrl,
        headers := mergeH
          [("X-App-Key", o.appKey), ("Authorization", "Bearer " ++ o.appSecret)]
          o.headers }

/-- Variant `V5`'s `submitBugReport`: posts to `/api/bugs/reports` with
headers `\x7b ...this.headers, "Content-Type": "application/json" \x7d`; any
non-2xx becomes `ApiBugReportError`. -/
def submitBugReport {α : Type} (c : Client) (r : BugReport) (now : Nat)
    (net : Transport α) : List Request × Except ClientError α :=
  if !validateBugReport r then
    ([], Except.error (ClientError.validation invalidReportMessage))
  else
    let req : Request :=
      { url := c.apiUrl ++ "/api/bugs/reports", method := "POST",
        headers := setH c.headers "Content-Type" "application/json",
        body := RequestBody.jsonReport (submittedReport r now) }
    match net with
    | Transport.failure e => ([req], Except.error (ClientError.thrown e))
    | Transport.response resp =>
      if !responseOk resp.status then
        match resp.errMeta with
        | some m => ([req], Except.error (ClientError.api m))
        | none => ([req], Except.error (ClientError.thrown jsonParseFailureMessage))
      else
        ([req], Except.ok resp.body)

/-- Variant `V5`'s `submitBugReportWithProgress` (XMLHttpRequest): sends the
JSON body with headers
`\x7b ...this.headers, "Content-Type": "application/json" \x7d`; its `onerror`
handler rejects with the fixed message `"Network request failed"`; on `load` a
non-2xx rejects with `ApiBugReportError` when the body parses as an error
envelope and otherwise with `"Server returned status N"`; a 2xx resolves with
the parsed body. -/
def submitBugReportWithProgress {α : Type} (c : Client) (r : BugReport) (now : Nat)
    (net : Transport α) : List Request × Except ClientError α :=
  if !validateBugReport r then
    ([], Except.error (ClientError.validation invalidReportMessage))
  else
    let req : Request :=
      { url := c.apiUrl ++ "/api/bugs/reports", method := "POST",
        headers := setH c.headers "Content-Type" "application/json",
        body := RequestBody.jsonReport (submittedReport r now) }
    match net with
    | Transport.failure _ => ([req], Except.error (ClientError.generic "Network request failed"))
    | Transport.response resp =>
      if responseOk resp.status then ([req], Except.ok resp.body)
      else
        match resp.errMeta with
        | some m => ([req], Except.error (ClientError.api m))
        | none =>
          ([req], Except.error (ClientError.generic
            ("Server returned status " ++ toString resp.status)))

end V5

/-! Helper lemmas about the JavaScript object-spread model of header maps. -/

theorem getH_setH_self (h : HeaderMap) (k v : String) : getH (setH h k v) k = some v := by
  induction h with
  | nil => simp [setH, getH]
  | cons p t ih =>
    obtain ⟨a, b⟩ := p
    by_cases hak : a = k
    · simp [setH, getH, hak]
    · simp [setH, getH, hak, ih]

theorem getH_setH_ne (h : HeaderMap) (k v q : String) (hne : q ≠ k) :
    getH (setH h k v) q = getH h q := by
  induction h with
  | nil => simp [setH, getH, Ne.symm hne]
  | cons p t ih =>
    obtain ⟨a, b⟩ := p
    by_cases hak : a = k
    · simp [setH, getH, hak, Ne.symm hne]
    · by_cases haq : a = q
      · subst haq
        simp [setH, getH, hak, hne]
      · simp [setH, getH, hak, haq, ih]

theorem mergeH_cons (base : HeaderMap) (a b : String) (t : HeaderMap) :
    mergeH base ((a, b) :: t) = mergeH (setH base a b) t := rfl

theorem getH_mergeH_not_mem (base extra : HeaderMap) (k : String)
    (hk : k ∉ extra.map Prod.fst) : getH (mergeH base extra) k = getH base k := by
  induction extra generalizing base with
  | nil => rfl
  | cons p t ih =>
    obtain ⟨a, b⟩ := p
    simp only [List.map_cons, List.mem_cons, not_or] at hk
    rw [mergeH_cons, ih (setH base a b) hk.2, getH_setH_ne base a b k hk.1]

theorem getH_mergeH_of_lookup (base extra : HeaderMap) (k v : String)
    (hnd : (extra.map Prod.fst).Nodup) (hl : getH extra k = some v) :
    getH (mergeH base extra) k = some v := by
  induction extra generalizing base with
  | nil => simp [getH] at hl
  | cons p t ih =>
    obtain ⟨a, b⟩ := p
    simp only [List.map_cons, List.nodup_cons] at hnd
    by_cases hak : a = k
    · subst hak
      simp only [getH, beq_self_eq_true, if_pos] at hl
      rw [mergeH_cons, getH_mergeH_not_mem _ _ _ hnd.1, getH_setH_self]
      simp_all
    · simp only [getH, beq_iff_eq, if_neg hak] at hl
      rw [mergeH_cons]
      exact ih (setH base a b) hnd.2 hl

/-! Characterizations of the schema validators. -/

theorem one_le_stringLength_iff (s : String) : 1 ≤ s.length ↔ s ≠ "" := by
  constructor
  · intro h he
    subst he
    exact absurd h (by decide)
  · intro h
    obtain ⟨data⟩ := s
    cases data with
    | nil => exact absurd rfl h
    | cons c cs => simp [String.length]

theorem validateBugReport_iff (r : BugReport) :
    validateBugReport r = true ↔
      r.title ≠ "" ∧ r.title.length ≤ 200 ∧ r.description ≠ "" ∧
      r.severity ∈ severityValues ∧ ∀ t ∈ r.tags, t ∈ bugTagValues := by
  simp [validateBugReport, one_le_stringLength_iff, and_assoc]

theorem validateBugReportFile_iff (r : BugReportFile) :
    validateBugReportFile r = true ↔
      r.title ≠ "" ∧ r.title.length ≤ 200 ∧ r.description ≠ "" ∧
      r.severity ∈ severityValues ∧ (∀ t ∈ r.tags, t ∈ bugTagValues) ∧
      ∀ f ∈ r.file, f.type ∈ allowedFileTypes := by
  simp [validateBugReportFile, one_le_stringLength_iff, and_assoc]

/-! Concrete values used to instantiate theorems with hypotheses. -/

/-- Error meta of a concrete 404 response. -/
def meta404 : Meta := { code := 404, status := "error", message := "Bug report not found" }

/-- Error meta of a concrete 500 response. -/
def meta500 : Meta := { code := 500, status := "error", message := "Internal Server Error" }

/-- Concrete 404 response (payload type `Nat`). -/
def resp404 : HttpResponse Nat := { status := 404, errMeta := some meta404, body := 0 }

/-- Concrete 500 response. -/
def resp500 : HttpResponse Nat := { status := 500, errMeta := some meta500, body := 0 }

/-- Concrete 200 response with payload `7`. -/
def resp200 : HttpResponse Nat := { status := 200, errMeta := none, body := 7 }

/-- Concrete client configuration as variant `V1`'s constructor builds it. -/
def demoClient : Client :=
  { apiUrl := "https://api.test.com",
    headers := [("Content-Type", "application/json"), ("X-App-Name", "TestApp"),
                ("X-App-Key", "test-key"), ("Authorization", "Bearer test-secret")] }

/-- Concrete valid report without `createdAt`. -/
def demoReport : BugReport :=
  { title := "T", description := "d", severity := "HIGH", tags := ["UI"] }

/-- Concrete valid report with `createdAt` given. -/
def demoReportTimed : BugReport :=
  { title := "T", description := "d", severity := "HIGH", tags := ["UI"], createdAt := some 5 }

/-- Concrete invalid report (empty title and description, severity outside the
enum). -/
def badReport : BugReport :=
  { title := "", description := "", severity := "INVALID", tags := [] }

/-- Concrete PNG attachment. -/
def demoFile : FileObj := { name := "shot.png", type := "image/png", size := 3 }

/-- Concrete valid multipart payload with one file. -/
def demoFileReport : BugReportFile :=
  { title := "T", description := "d", severity := "LOW", tags := ["UI"], file := [demoFile] }

/-- Concrete invalid multipart payload (empty title and description). -/
def badFileReport : BugReportFile :=
  { title := "", description := "", severity := "LOW", tags := [], file := [] }

/-- Concrete multipart payload that is valid but has an empty file list. -/
def emptyFilesReport : BugReportFile :=
  { title := "T", description := "d", severity := "LOW", tags := ["UI"], file := [] }

/-! Request traces of the `V1`/`V2` JSON operations on a valid report: the
one issued request, whatever the transport outcome. -/

theorem submitV1_requests {α : Type} (c : Client) (r : BugReport) (now : Nat)
    (net : Transport α) (h : validateBugReport r = true) :
    (V1.submitBugReport c r now net).1 =
      [{ url := c.apiUrl ++ "/bugs/reports", method := "POST", headers := c.headers,
         body := RequestBody.jsonReport (submittedReport r now) }] := by
  cases net with
  | failure e => simp [V1.submitBugReport, h]
  | response resp =>
    by_cases hok : responseOk resp.status = false <;> cases hm : resp.errMeta <;>
      simp [V1.submitBugReport, h, hok, hm]

theorem submitV2_requests {α : Type} (c : Client) (r : BugReport) (now : Nat)
    (net : Transport α) (h : validateBugReport r = true) :
    (V2.submitBugReportWithProgress c r now net).1 =
      [{ url := c.apiUrl ++ "/bugs/reports", method := "POST", headers := c.headers,
         body := RequestBody.jsonReport (submittedReport r now) }] := by
  cases net with
  | failure e => simp [V2.submitBugReportWithProgress, h]
  | response resp =>
    by_cases hok : responseOk resp.status = false <;> cases hm : resp.errMeta <;>
      simp [V2.submitBugReportWithProgress, h, hok, hm]

theorem getV1_requests {α : Type} (c : Client) (idStr : String) (net : Transport α) :
    (V1.getBugReport c idStr net).1 =
      [{ url := c.apiUrl ++ "/bugs/" ++ idStr, method := "GET", headers := c.headers,
         body := RequestBody.empty }] := by
  cases net with
  | failure e => simp [V1.getBugReport]
  | response resp =>
    simp only [V1.getBugReport]
    split <;> (try split) <;> (try split) <;> rfl

/-!  Claim C1. -/

/-- C1 counterexample: variant `V1`'s `submitBugReport` maps a 404 response to
the generic `ApiBugReportError` (its error branch has no 404 case), not to
`NotFoundBugReportError`, so the claim that every client operation maps a 404
status to the not-found error is false. -/
theorem c1_counterexample :
    (V1.submitBugReport demoClient demoReport 0 (Transport.response resp404)).2 =
      Except.error (ClientError.api meta404) ∧
    (V1.submitBugReport demoClient demoReport 0 (Transport.response resp404)).2 ≠
      Except.error (ClientError.notFound meta404) := by
  exact ⟨by decide, by decide⟩

/-- C1 (amended): on a non-2xx response whose body parses as an error
envelope, `getBugReport` and every operation of the `handleResponse`-based
variant map a 404 status to `NotFoundBugReportError` and any other non-2xx
status to `ApiBugReportError`, while the submit and tag operations of the
other variants throw `ApiBugReportError` for every non-2xx status, 404
included; every such error carries the server-provided meta (its `code` and
`message`). -/
theorem c1_amended_theorem {α : Type} (c : Client) (idStr : String) (r : BugReport)
    (rf : BugReportFile) (now : Nat) (resp : HttpResponse α) (m : Meta)
    (hok : responseOk resp.status = false) (hm : resp.errMeta = some m)
    (hr : validateBugReport r = true) (hrf : validateBugReportFile rf = true) :
    ((V1.getBugReport c idStr (Transport.response resp)).2 =
      Except.error (if resp.status == 404 then ClientError.notFound m else ClientError.api m)) ∧
    (V3.handleResponse resp =
      Except.error (if resp.status == 404 then ClientError.notFound m else ClientError.api m)) ∧
    ((V1.submitBugReport c r now (Transport.response resp)).2 =
      Except.error (ClientError.api m)) ∧
    ((V2.getBugTags c (Transport.response resp)).2 = Except.error (ClientError.api m)) ∧
    ((V4.submitBugReportWithFileProgress c rf (Transport.response resp)).2.2 =
      Except.error (ClientError.api m)) := by
  refine ⟨?_, ?_, ?_, ?_, ?_⟩ <;>
    by_cases h404 : resp.status = 404 <;>
      simp_all [V1.getBugReport, V3.handleResponse, V1.submitBugReport, V2.getBugTags,
        V4.submitBugReportWithFileProgress]

/-- C1 witness: the amended theorem applied to a concrete 404 response. -/
theorem c1_amended_witness :
    responseOk resp404.status = false ∧ resp404.errMeta = some meta404 ∧
    validateBugReport demoReport = true ∧ validateBugReportFile demoFileReport = true ∧
    (V1.getBugReport demoClient "123" (Transport.response resp404)).2 =
      Except.error (if resp404.status == 404 then ClientError.notFound meta404
        else ClientError.api meta404) :=
  ⟨by decide, by decide, by decide, by decide,
    (c1_amended_theorem demoClient "123" demoReport demoFileReport 0 resp404 meta404
      (by decide) (by decide) (by decide) (by decide)).1⟩

/-!  Claim C2. -/

/-- C2: every submission operation that is handed a payload failing its schema
validation ends with the validation error and issues no HTTP request at all. -/
theorem c2_theorem {α : Type} (c : Client) (r : BugReport) (rf : BugReportFile)
    (now : Nat) (net : Transport α)
    (hr : validateBugReport r = false) (hrf : validateBugReportFile rf = false) :
    (V1.submitBugReport c r now net =
      ([], Except.error (ClientError.validation invalidReportMessage))) ∧
    (V2.submitBugReportWithProgress c r now net =
      ([], Except.error (ClientError.validation invalidReportMessage))) ∧
    (V3.submitBugReport c r now net =
      ([], Except.error (ClientError.validation invalidReportMessage))) ∧
    (V3.submitBugReportWithFile c rf net =
      ([], Except.error (ClientError.validation invalidReportMessage))) ∧
    (V3.submitBugReportWithFileProgress c rf net =
      ([], Except.error (ClientError.validation invalidReportMessage))) ∧
    (V4.submitBugReportWithFileProgress c rf net =
      (c, [], Except.error (ClientError.validation invalidReportMessage))) ∧
    (V5.submitBugReport c r now net =
      ([], Except.error (ClientError.validation invalidReportMessage))) ∧
    (V5.submitBugReportWithProgress c r now net =
      ([], Except.error (ClientError.validation invalidReportMessage))) := by
  refine ⟨?_, ?_, ?_, ?_, ?_, ?_, ?_, ?_⟩ <;>
    simp [V1.submitBugReport, V2.submitBugReportWithProgress, V3.submitBugReport,
      V3.submitBugReportWithFile, V3.submitBugReportWithFileProgress,
      V4.submitBugReportWithFileProgress, V5.submitBugReport,
      V5.submitBugReportWithProgress, hr, hrf]

/-- C2 witness: the theorem applied to concrete invalid payloads. -/
theorem c2_witness :
    validateBugReport badReport = false ∧ validateBugReportFile badFileReport = false ∧
    V1.submitBugReport demoClient badReport 0 (Transport.failure "down" : Transport Nat) =
      ([], Except.error (ClientError.validation invalidReportMessage)) :=
  ⟨by decide, by decide,
    (c2_theorem demoClient badReport badFileReport 0 (Transport.failure "down" : Transport Nat)
      (by decide) (by decide)).1⟩

/-!  Claim C3. -/

/-- C3: an options record with an empty (or, in JavaScript, absent — both are
falsy) API URL or any empty required credential is rejected by the
constructor: variant `V1` requires `appName`, `appKey` and `appSecret`, and
variant `V5` (whose options have no `appName`) rejects an empty `apiUrl`,
`appKey` or `appSecret` through `AppCredentialsSchema`; in both variants no
client instance is produced. -/
theorem c3_theorem (o1 : V1.ClientOptions) (o5 : V5.ClientOptions)
    (h1 : o1.apiUrl = "" ∨ o1.appName = "" ∨ o1.appKey = "" ∨ o1.appSecret = "")
    (h5 : o5.apiUrl = "" ∨ o5.appKey = "" ∨ o5.appSecret = "") :
    exceptIsOk (V1.mkClient o1) = false ∧ exceptIsOk (V5.mkClient o5) = false := by
  constructor
  · by_cases hu : o1.apiUrl = ""
    · simp [V1.mkClient, hu, exceptIsOk]
    · rcases h1 with h | h | h | h
      · exact absurd h hu
      all_goals simp [V1.mkClient, hu, h, exceptIsOk]
  · have hfail : V5.zodCheckCredentials o5 = false := by
      rcases h5 with h | h | h <;>
        simp [V5.zodCheckCredentials, V5.zodIsUrl, V5.splitSchemeSep, h]
    simp [V5.mkClient, hfail, exceptIsOk]

/-- C3 witness: the theorem applied to concrete options records with an empty
`appSecret` (variant `V1`) and an empty `apiUrl` (variant `V5`). -/
theorem c3_witness :
    exceptIsOk (V1.mkClient
      { apiUrl := "https://api.test.com", appName := "TestApp", appKey := "k",
        appSecret := "" }) = false ∧
    exceptIsOk (V5.mkClient
      { apiUrl := "", appKey := "test-key", appSecret := "test-secret" }) = false :=
  c3_theorem
    { apiUrl := "https://api.test.com", appName := "TestApp", appKey := "k", appSecret := "" }
    { apiUrl := "", appKey := "test-key", appSecret := "test-secret" }
    (Or.inr (Or.inr (Or.inr rfl))) (Or.inl rfl)

/-!  Claim C4. -/

/-- Concrete `V4` options without custom headers. -/
def demoOptsV4 : V4.ClientOptions :=
  { apiUrl := "https://api.test.com", appKey := "test-key", appSecret := "test-secret" }

/-- Concrete client configuration as variant `V4`'s constructor builds it
from options without custom headers. -/
def demoClientV4 : Client :=
  { apiUrl := "https://api.test.com",
    headers := [("Content-Type", "application/json"), ("X-App-Key", "test-key"),
                ("Authorization", "Bearer test-secret")] }

/-- C4: evaluation of variant `V4`'s `submitBugReportWithFileProgress` at a
concrete client built by its constructor.  The call executes
`this.headers["Content-Type"] = "multipart/form-data"`, a persistent write to
the instance, so after the call the configuration no longer equals what the
constructor established — contradicting the specified statelessness. -/
theorem c4_theorem :
    V4.mkClient demoOptsV4 = Except.ok demoClientV4 ∧
    getH demoClientV4.headers "Content-Type" = some "application/json" ∧
    (V4.submitBugReportWithFileProgress demoClientV4 demoFileReport
        (Transport.failure "down" : Transport Nat)).1 ≠ demoClientV4 ∧
    getH (V4.submitBugReportWithFileProgress demoClientV4 demoFileReport
        (Transport.failure "down" : Transport Nat)).1.headers "Content-Type" =
      some "multipart/form-data" := by
  exact ⟨by decide, by decide, by decide, by decide⟩

/-!  Claim C5. -/

/-- C5 counterexample: a payload whose file list is empty passes
`BugReportFileSchema` validation (the schema's file array has no lower length
bound), and `submitBugReportWithFile` accepts it — it issues the request and
returns the 2xx payload — so the claim that a payload with an empty file list
is not accepted is false. -/
theorem c5_counterexample :
    validateBugReportFile emptyFilesReport = true ∧
    (V3.submitBugReportWithFile demoClient emptyFilesReport (Transport.response resp200)).1 ≠
      [] ∧
    (V3.submitBugReportWithFile demoClient emptyFilesReport (Transport.response resp200)).2 =
      Except.ok 7 := by
  exact ⟨by decide, by decide, by decide⟩

/-- C5 (amended): for every payload accepted by `BugReportFileSchema`, the
multipart upload operations build a form body containing exactly the fields
`title`, `description`, `severity` and `tags` serialized as a JSON string,
followed by the payload's files — zero or more of them — each appended under
the field name `file`. -/
theorem c5_amended_theorem {α : Type} (c : Client) (rf : BugReportFile) (net : Transport α)
    (h : validateBugReportFile rf = true) :
    ((V3.submitBugReportWithFile c rf net).1.map Request.body =
      [RequestBody.form
        ([FormEntry.field "title" rf.title, FormEntry.field "description" rf.description,
          FormEntry.field "severity" rf.severity,
          FormEntry.field "tags" (jsonStringOfTags rf.tags)] ++
          rf.file.map (fun f => FormEntry.fileEntry "file" f))]) ∧
    ((V3.submitBugReportWithFileProgress c rf net).1.map Request.body =
      [RequestBody.form
        ([FormEntry.field "title" rf.title, FormEntry.field "description" rf.description,
          FormEntry.field "severity" rf.severity,
          FormEntry.field "tags" (jsonStringOfTags rf.tags)] ++
          rf.file.map (fun f => FormEntry.fileEntry "file" f))]) ∧
    ((V4.submitBugReportWithFile c rf net).1.map Request.body =
      [RequestBody.form
        ([FormEntry.field "title" rf.title, FormEntry.field "description" rf.description,
          FormEntry.field "severity" rf.severity,
          FormEntry.field "tags" (jsonStringOfTags rf.tags)] ++
          rf.file.map (fun f => FormEntry.fileEntry "file" f))]) := by
  refine ⟨?_, ?_, ?_⟩
  · cases net <;> simp [V3.submitBugReportWithFile, formDataOf, h]
  · cases net with
    | failure e => simp [V3.submitBugReportWithFileProgress, formDataOf, h]
    | response resp =>
      by_cases hok : responseOk resp.status = true <;> cases hm : resp.errMeta <;>
        simp [V3.submitBugReportWithFileProgress, formDataOf, h, hok, hm]
  · cases net with
    | failure e => simp [V4.submitBugReportWithFile, formDataOf, h]
    | response resp =>
      by_cases hok : responseOk resp.status = true <;> cases hm : resp.errMeta <;>
        simp [V4.submitBugReportWithFile, formDataOf, h, hok, hm]

/-- C5 witness: the amended theorem applied at a concrete one-file payload. -/
theorem c5_amended_witness :
    validateBugReportFile demoFileReport = true ∧
    (V3.submitBugReportWithFile demoClient demoFileReport
        (Transport.response resp200)).1.map Request.body =
      [RequestBody.form
        ([FormEntry.field "title" demoFileReport.title,
          FormEntry.field "description" demoFileReport.description,
          FormEntry.field "severity" demoFileReport.severity,
          FormEntry.field "tags" (jsonStringOfTags demoFileReport.tags)] ++
          demoFileReport.file.map (fun f => FormEntry.fileEntry "file" f))] :=
  ⟨by decide,
    (c5_amended_theorem demoClient demoFileReport (Transport.response resp200) (by decide)).1⟩

/-!  Claim C6. -/

/-- C6 counterexample: the fetch-based `submitBugReport` does not wrap
transport failures in a fixed-message error; it propagates the transport's
own exception, so the same request and payload fail with two different
messages under two different transport failures. -/
theorem c6_counterexample :
    (V1.submitBugReport demoClient demoReport 0
        (Transport.failure "connection refused" : Transport Nat)).2 =
      Except.error (ClientError.thrown "connection refused") ∧
    (V1.submitBugReport demoClient demoReport 0
        (Transport.failure "host unreachable" : Transport Nat)).2 =
      Except.error (ClientError.thrown "host unreachable") ∧
    (Except.error (ClientError.thrown "connection refused") : Except ClientError Nat) ≠
      Except.error (ClientError.thrown "host unreachable") := by
  exact ⟨by decide, by decide, by decide⟩

/-- C6 (amended): transport-level failures in the XMLHttpRequest-based
operations reject with a fixed message that depends on neither the request
nor the payload (`"Network error occurred"`; `"Network request failed"` for
variant `V5`'s `submitBugReportWithProgress`), while the fetch-based
operations propagate the transport's own error unchanged. -/
theorem c6_amended_theorem {α : Type} (c : Client) (r : BugReport) (rf : BugReportFile)
    (now : Nat) (idStr e : String)
    (hr : validateBugReport r = true) (hrf : validateBugReportFile rf = true) :
    ((V3.submitBugReportWithFileProgress c rf (Transport.failure e : Transport α)).2 =
      Except.error (ClientError.generic "Network error occurred")) ∧
    ((V4.submitBugReportWithFileProgress c rf (Transport.failure e : Transport α)).2.2 =
      Except.error (ClientError.generic "Network error occurred")) ∧
    ((V5.submitBugReportWithProgress c r now (Transport.failure e : Transport α)).2 =
      Except.error (ClientError.generic "Network request failed")) ∧
    ((V1.submitBugReport c r now (Transport.failure e : Transport α)).2 =
      Except.error (ClientError.thrown e)) ∧
    ((V1.getBugReport c idStr (Transport.failure e : Transport α)).2 =
      Except.error (ClientError.thrown e)) := by
  refine ⟨?_, ?_, ?_, ?_, ?_⟩ <;>
    simp [V3.submitBugReportWithFileProgress, V4.submitBugReportWithFileProgress,
      V5.submitBugReportWithProgress, V1.submitBugReport, V1.getBugReport, hr, hrf]

/-- C6 witness: the amended theorem applied at a concrete transport failure. -/
theorem c6_amended_witness :
    validateBugReport demoReport = true ∧ validateBugReportFile demoFileReport = true ∧
    (V3.submitBugReportWithFileProgress demoClient demoFileReport
        (Transport.failure "down" : Transport Nat)).2 =
      Except.error (ClientError.generic "Network error occurred") :=
  ⟨by decide, by decide,
    (c6_amended_theorem demoClient demoReport demoFileReport 0 "1" "down"
      (by decide) (by decide)).1⟩

/-!  Claim C7. -/

/-- C7: the JSON submit operations send the report with `createdAt` defaulted
to the time of the request: the single issued request's body is the report
with `createdAt := report.createdAt ?? now`; when `createdAt` was absent the
body is the report stamped with `now`, and when it was present the body is
the report unchanged. -/
theorem c7_theorem {α : Type} (c : Client) (r : BugReport) (now : Nat) (net : Transport α)
    (h : validateBugReport r = true) :
    ((V1.submitBugReport c r now net).1.map Request.body =
      [RequestBody.jsonReport (submittedReport r now)]) ∧
    ((V2.submitBugReportWithProgress c r now net).1.map Request.body =
      [RequestBody.jsonReport (submittedReport r now)]) ∧
    (r.createdAt = none → submittedReport r now = { r with createdAt := some now }) ∧
    (∀ t, r.createdAt = some t → submittedReport r now = r) := by
  refine ⟨?_, ?_, ?_, ?_⟩
  · rw [submitV1_requests c r now net h]
    simp
  · rw [submitV2_requests c r now net h]
    simp
  · intro hc
    simp [submittedReport, hc]
  · intro t ht
    obtain ⟨title, description, severity, tags, file, createdAt⟩ := r
    simp_all [submittedReport]

/-- C7 witness: the theorem applied at a report without `createdAt` and at a
report with `createdAt` given. -/
theorem c7_witness :
    validateBugReport demoReport = true ∧ validateBugReport demoReportTimed = true ∧
    submittedReport demoReport 9 = { demoReport with createdAt := some 9 } ∧
    submittedReport demoReportTimed 9 = demoReportTimed :=
  ⟨by decide, by decide,
    (c7_theorem demoClient demoReport 9 (Transport.failure "down" : Transport Nat)
      (by decide)).2.2.1 rfl,
    (c7_theorem demoClient demoReportTimed 9 (Transport.failure "down" : Transport Nat)
      (by decide)).2.2.2 5 rfl⟩

/-!  Claim C8. -/

/-- C8: on a 2xx response every operation returns the parsed response body
unchanged: `handleResponse` and each operation hand back exactly the payload
the transport parsed, adding, removing and rewriting nothing. -/
theorem c8_theorem {α : Type} (c : Client) (idStr : String) (r : BugReport)
    (rf : BugReportFile) (now : Nat) (resp : HttpResponse α)
    (hok : responseOk resp.status = true)
    (hr : validateBugReport r = true) (hrf : validateBugReportFile rf = true) :
    V3.handleResponse resp = Except.ok resp.body ∧
    (V1.submitBugReport c r now (Transport.response resp)).2 = Except.ok resp.body ∧
    (V1.getBugReport c idStr (Transport.response resp)).2 = Except.ok resp.body ∧
    (V2.getBugTags c (Transport.response resp)).2 = Except.ok resp.body ∧
    (V3.submitBugReportWithFile c rf (Transport.response resp)).2 = Except.ok resp.body ∧
    (V3.submitBugReportWithFileProgress c rf (Transport.response resp)).2 =
      Except.ok resp.body ∧
    (V4.submitBugReportWithFileProgress c rf (Transport.response resp)).2.2 =
      Except.ok resp.body ∧
    (V5.submitBugReportWithProgress c r now (Transport.response resp)).2 =
      Except.ok resp.body := by
  refine ⟨?_, ?_, ?_, ?_, ?_, ?_, ?_, ?_⟩ <;>
    simp [V3.handleResponse, V1.submitBugReport, V1.getBugReport, V2.getBugTags,
      V3.submitBugReportWithFile, V3.submitBugReportWithFileProgress,
      V4.submitBugReportWithFileProgress, V5.submitBugReportWithProgress, hok, hr, hrf]

/-- C8 witness: the theorem applied at a concrete 200 response with payload
`7`. -/
theorem c8_witness :
    responseOk resp200.status = true ∧ validateBugReport demoReport = true ∧
    validateBugReportFile demoFileReport = true ∧
    (V1.submitBugReport demoClient demoReport 0 (Transport.response resp200)).2 =
      Except.ok resp200.body :=
  ⟨by decide, by decide, by decide,
    (c8_theorem demoClient "123" demoReport demoFileReport 0 resp200
      (by decide) (by decide) (by decide)).2.1⟩

/-!  Claim C9. -/

/-- Concrete `V4` options with a custom `Content-Type` header. -/
def customOptsV4 : V4.ClientOptions :=
  { apiUrl := "https://api.test.com", appKey := "test-key", appSecret := "test-secret",
    headers := [("Content-Type", "text/plain")] }

/-- Client the `V4` constructor builds from `customOptsV4`: the custom
`Content-Type` overrode the default one. -/
def customClientV4 : Client :=
  { apiUrl := "https://api.test.com",
    headers := [("Content-Type", "text/plain"), ("X-App-Key", "test-key"),
                ("Authorization", "Bearer test-secret")] }

/-- C9 counterexample: a caller-supplied `Content-Type` does replace the
default one in the constructed headers, but it does not survive into every
subsequent request: variant `V4`'s `submitBugReportWithFile` spreads
`"Content-Type": "multipart/form-data"` over the stored headers when building
the request, so its request carries `multipart/form-data` instead of the
custom `text/plain`. -/
theorem c9_counterexample :
    V4.mkClient customOptsV4 = Except.ok customClientV4 ∧
    getH customClientV4.headers "Content-Type" = some "text/plain" ∧
    ((V4.submitBugReportWithFile customClientV4 demoFileReport
        (Transport.response resp200)).1.map (fun q => getH q.headers "Content-Type")) =
      [some "multipart/form-data"] := by
  exact ⟨by decide, by decide, by decide⟩

/-- C9 (amended): the constructed headers are the defaults (`Content-Type`,
`X-App-Name`/`X-App-Key`, `Authorization`) with each custom entry taking
precedence on key collision, and operations that send the stored headers
unchanged — such as variant `V1`'s `submitBugReport` and `getBugReport` — use
exactly these merged headers on every request; the multipart upload
operations, however, override or remove the `Content-Type` entry when
building their request, so a caller-supplied `Content-Type` does not reach
those requests. -/
theorem c9_amended_theorem {α : Type} (o : V1.ClientOptions) (k v idStr : String)
    (r : BugReport) (now : Nat) (net : Transport α)
    (hnd : (o.headers.map Prod.fst).Nodup)
    (ha : o.apiUrl ≠ "") (hb : o.appName ≠ "") (hc : o.appKey ≠ "") (hd : o.appSecret ≠ "")
    (hkv : getH o.headers k = some v) (hr : validateBugReport r = true) :
    V1.mkClient o =
      Except.ok { apiUrl := o.apiUrl, headers := mergeH (V1.defaultHeaders o) o.headers } ∧
    getH (mergeH (V1.defaultHeaders o) o.headers) k = some v ∧
    ((V1.submitBugReport
        { apiUrl := o.apiUrl, headers := mergeH (V1.defaultHeaders o) o.headers }
        r now net).1.map Request.headers = [mergeH (V1.defaultHeaders o) o.headers]) ∧
    ((V1.getBugReport
        { apiUrl := o.apiUrl, headers := mergeH (V1.defaultHeaders o) o.headers }
        idStr net).1.map Request.headers = [mergeH (V1.defaultHeaders o) o.headers]) := by
  refine ⟨?_, getH_mergeH_of_lookup _ _ _ _ hnd hkv, ?_, ?_⟩
  · simp [V1.mkClient, ha, hb, hc, hd]
  · rw [submitV1_requests _ r now net hr]
    simp
  · rw [getV1_requests _ idStr net]
    simp

/-- C9 witness: the amended theorem applied at concrete options with a custom
`Authorization` header, which wins over the default one. -/
theorem c9_amended_witness :
    getH [("Authorization", "Bearer custom")] "Authorization" = some "Bearer custom" ∧
    getH (mergeH
      (V1.defaultHeaders
        { apiUrl := "https://api.test.com", appName := "TestApp", appKey := "test-key",
          appSecret := "test-secret", headers := [("Authorization", "Bearer custom")] })
      [("Authorization", "Bearer custom")]) "Authorization" = some "Bearer custom" :=
  ⟨by decide,
    (c9_amended_theorem
      { apiUrl := "https://api.test.com", appName := "TestApp", appKey := "test-key",
        appSecret := "test-secret", headers := [("Authorization", "Bearer custom")] }
      "Authorization" "Bearer custom" "123" demoReport 0
      (Transport.failure "down" : Transport Nat)
      (by decide) (by decide) (by decide) (by decide) (by decide) (by decide)
      (by decide)).2.1⟩

/-!  Claim C10. -/

/-- C10: a report whose title is empty or longer than 200 characters, whose
description is empty, or whose tags contain a string outside the tag enum
fails `BugReportSchema` validation, upon which `submitBugReport` throws the
validation error and issues no request; conversely, every report within those
bounds whose tags all lie in the enum and whose severity is a `BugSeverity`
value passes validation. -/
theorem c10_theorem (r : BugReport) :
    ((r.title = "" ∨ 200 < r.title.length ∨ r.description = "" ∨
        ∃ t ∈ r.tags, t ∉ bugTagValues) →
      validateBugReport r = false ∧
      ∀ (α : Type) (c : Client) (now : Nat) (net : Transport α),
        (V1.submitBugReport c r now net).1 = [] ∧
        (V1.submitBugReport c r now net).2 =
          Except.error (ClientError.validation invalidReportMessage)) ∧
    ((r.title ≠ "" ∧ r.title.length ≤ 200 ∧ r.description ≠ "" ∧
        (∀ t ∈ r.tags, t ∈ bugTagValues) ∧ r.severity ∈ severityValues) →
      validateBugReport r = true) := by
  constructor
  · intro hbad
    have hv : validateBugReport r = false := by
      rw [Bool.eq_false_iff]
      intro htrue
      rw [validateBugReport_iff] at htrue
      obtain ⟨h1, h2, h3, h4, h5⟩ := htrue
      rcases hbad with h | h | h | ⟨t, ht, hmem⟩
      · exact h1 h
      · exact absurd h2 (by omega)
      · exact h3 h
      · exact hmem (h5 t ht)
    refine ⟨hv, fun α c now net => ?_⟩
    constructor <;> simp [V1.submitBugReport, hv]
  · intro h
    obtain ⟨h1, h2, h3, h4, h5⟩ := h
    rw [validateBugReport_iff]
    exact ⟨h1, h2, h3, h5, h4⟩

/-- C10 witness: the theorem applied at a concrete invalid report (empty
title) and a concrete valid one. -/
theorem c10_witness :
    validateBugReport badReport = false ∧ validateBugReport demoReport = true :=
  ⟨((c10_theorem badReport).1 (Or.inl rfl)).1,
   (c10_theorem demoReport).2 ⟨by decide, by decide, by decide, by decide, by decide⟩⟩

end BugReportPkg
